import Mathlib

/-!
Shallow embedding of the orange-skill wallet CLI (src/config.rs and
src/main.rs): the configuration-validation layer, the canonical event
document, and the event-dispatch daemon loop, together with theorems
settling the specification claims about them.
-/

set_option autoImplicit false

namespace Orange

/-! ## External SDK value types

The wallet SDK types are external collaborators: the embedding only
needs them as opaque carriers of the string they were parsed from.
-/

/-- Opaque network identifier produced by the external network parser. -/
structure Network where
  name : String
deriving DecidableEq

/-- Opaque socket address produced by the external address parser. -/
structure SocketAddress where
  addr : String
deriving DecidableEq

/-- Opaque node public key produced by the external key parser. -/
structure PublicKey where
  key : String
deriving DecidableEq

/-- Opaque BIP39 mnemonic produced by the external mnemonic parser. -/
structure Mnemonic where
  phrase : String
deriving DecidableEq

/-- Chain source variants of the external SDK, as constructed by
config.rs lines 79 to 115. -/
inductive ChainSource where
  | Esplora (url : String) (username : Option String) (password : Option String)
  | Electrum (url : String)
  | BitcoindRPC (host : String) (port : Nat) (user : String) (password : String)
deriving DecidableEq

/-- Storage backend selector of the external SDK. -/
inductive StorageConfig where
  | LocalSQLite (path : String)
deriving DecidableEq

/-- Logger selector of the external SDK. -/
inductive LoggerType where
  | File (path : String)
deriving DecidableEq

/-- Seed material of the external SDK. -/
inductive Seed where
  | Mnemonic (mnemonic : Mnemonic) (passphrase : Option String)
deriving DecidableEq

/-- Tunable wallet parameters; the CLI only ever uses the default value,
so the embedding keeps them abstract. -/
abbrev Tunables := Unit

/-- Default tunables, standing for Tunables::default() in the SDK. -/
def Tunables.default : Tunables := ()

/-- Spark wallet settings of the external SDK. -/
structure SparkWalletConfig where
  sync_interval_secs : Nat
  prefer_spark_over_lightning : Bool
deriving DecidableEq

/-- Extra configuration of the external SDK. -/
inductive ExtraConfig where
  | Spark (cfg : SparkWalletConfig)
deriving DecidableEq

/-- Validated wallet-session descriptor, mirroring the WalletConfig
record built at config.rs lines 135 to 152. -/
structure WalletConfig where
  storage_config : StorageConfig
  logger_type : LoggerType
  chain_source : ChainSource
  lsp : SocketAddress × PublicKey × Option String
  scorer_url : Option String
  rgs_url : Option String
  network : Network
  seed : Seed
  tunables : Tunables
  extra_config : ExtraConfig
deriving DecidableEq

/-! ## Raw configuration (config.rs) -/

/-- Raw chain-source section, config.rs lines 21 to 30. -/
structure ChainSourceConfig where
  source_type : String
  url : Option String
  host : Option String
  port : Option Nat
  username : Option String
  password : Option String
deriving DecidableEq

/-- Raw LSP section, config.rs lines 32 to 37. -/
structure LspConfig where
  address : String
  node_id : String
  token : Option String
deriving DecidableEq

/-- Raw spark section, config.rs lines 39 to 45. -/
structure SparkConfig where
  sync_interval_secs : Nat
  prefer_spark_over_lightning : Bool
deriving DecidableEq

/-- Field default for the sync interval, config.rs lines 56 to 58. -/
def default_sync_interval : Nat := 60

/-- Default spark section, config.rs lines 47 to 54. -/
def SparkConfig.default : SparkConfig :=
  { sync_interval_secs := default_sync_interval
    prefer_spark_over_lightning := false }

/-- Models the serde default attributes on the spark section
(config.rs lines 17 to 18 and 39 to 45): a wholly absent section takes
SparkConfig::default(); inside a present section an absent sync
interval takes default_sync_interval and an absent preference flag
takes false, while present values pass through. -/
def SparkConfig.ofSection : Option (Option Nat × Option Bool) → SparkConfig
  | none => SparkConfig.default
  | some (si, pf) =>
    { sync_interval_secs := si.getD default_sync_interval
      prefer_spark_over_lightning := pf.getD false }

/-- Raw configuration document, config.rs lines 10 to 19. -/
structure Config where
  network : String
  storage_path : String
  mnemonic : String
  chain_source : ChainSourceConfig
  lsp : LspConfig
  spark : SparkConfig
deriving DecidableEq

/-- External parse operations consumed by into_wallet_config. The
network and LSP address parsers discard their error detail (the source
maps the error away), so an Option suffices; the node id and mnemonic
parsers contribute their error text to the message. -/
structure Parsers where
  parseNetwork : String → Option Network
  parseLspAddress : String → Option SocketAddress
  parseLspPubkey : String → Except String PublicKey
  parseMnemonic : String → Except String Mnemonic

/-- Chain-source dispatch of into_wallet_config, config.rs lines 73
to 117: a match on the type tag, each variant demanding its required
fields in source order and failing with the message of the first
missing one. -/
def chainSourceFrom (cs : ChainSourceConfig) : Except String ChainSource :=
  match cs.source_type with
  | "esplora" =>
    match cs.url with
    | some url => Except.ok (ChainSource.Esplora url cs.username cs.password)
    | none => Except.error "esplora chain_source requires \x27url\x27"
  | "electrum" =>
    match cs.url with
    | some url => Except.ok (ChainSource.Electrum url)
    | none => Except.error "electrum chain_source requires \x27url\x27"
  | "bitcoind_rpc" =>
    match cs.host with
    | none => Except.error "bitcoind_rpc chain_source requires \x27host\x27"
    | some host =>
      match cs.port with
      | none => Except.error "bitcoind_rpc chain_source requires \x27port\x27"
      | some port =>
        match cs.username with
        | none => Except.error "bitcoind_rpc chain_source requires \x27username\x27"
        | some user =>
          match cs.password with
          | none => Except.error "bitcoind_rpc chain_source requires \x27password\x27"
          | some password => Except.ok (ChainSource.BitcoindRPC host port user password)
  | other => Except.error ("Unknown chain_source type: " ++ other)

/-- Tags given a dedicated arm by the chain-source dispatch at
config.rs lines 73 to 117; every other tag falls to the failing
default arm. -/
def supportedChainSourceTags : List String := ["esplora", "electrum", "bitcoind_rpc"]

/-- Translation of a raw configuration into a validated wallet-session
descriptor, config.rs lines 67 to 153, parametrized over the external
SDK parsers. -/
def Config.into_wallet_config (c : Config) (p : Parsers) : Except String WalletConfig :=
  match p.parseNetwork c.network with
  | none => Except.error ("Invalid network: " ++ c.network)
  | some network =>
  match chainSourceFrom c.chain_source with
  | Except.error e => Except.error e
  | Except.ok chain_source =>
  match p.parseLspAddress c.lsp.address with
  | none => Except.error ("Invalid LSP address: " ++ c.lsp.address)
  | some lsp_address =>
  match p.parseLspPubkey c.lsp.node_id with
  | Except.error e => Except.error ("Invalid LSP node_id: " ++ e)
  | Except.ok lsp_pubkey =>
  match p.parseMnemonic c.mnemonic with
  | Except.error e => Except.error ("Invalid mnemonic: " ++ e)
  | Except.ok mnemonic =>
    Except.ok
      { storage_config := StorageConfig.LocalSQLite c.storage_path
        logger_type := LoggerType.File (c.storage_path ++ "/wallet.log")
        chain_source := chain_source
        lsp := (lsp_address, lsp_pubkey, c.lsp.token)
        scorer_url := none
        rgs_url := none
        network := network
        seed := Seed.Mnemonic mnemonic none
        tunables := Tunables.default
        extra_config := ExtraConfig.Spark
          { sync_interval_secs := c.spark.sync_interval_secs
            prefer_spark_over_lightning := c.spark.prefer_spark_over_lightning } }

/-- Error message of one validation step, or none when the step
succeeds, listed in the evaluation order of into_wallet_config:
network, chain source, LSP address, LSP node id, mnemonic. -/
def validationSteps (p : Parsers) (c : Config) : List (Option String) :=
  [ match p.parseNetwork c.network with
    | some _ => none
    | none => some ("Invalid network: " ++ c.network)
  , match chainSourceFrom c.chain_source with
    | Except.ok _ => none
    | Except.error e => some e
  , match p.parseLspAddress c.lsp.address with
    | some _ => none
    | none => some ("Invalid LSP address: " ++ c.lsp.address)
  , match p.parseLspPubkey c.lsp.node_id with
    | Except.ok _ => none
    | Except.error e => some ("Invalid LSP node_id: " ++ e)
  , match p.parseMnemonic c.mnemonic with
    | Except.ok _ => none
    | Except.error e => some ("Invalid mnemonic: " ++ e) ]

/-- First populated entry of a list of optional errors. -/
def firstSome : List (Option String) → Option String
  | [] => none
  | some e :: _ => some e
  | none :: rest => firstSome rest

/-- Success test for an Except value. -/
def exceptIsOk {ε α : Type} : Except ε α → Bool
  | Except.ok _ => true
  | Except.error _ => false

/-! ## Canonical event document (main.rs) -/

/-- JSON values, restricted to the shapes the CLI emits. -/
inductive Json where
  | null
  | bool (b : Bool)
  | num (n : Nat)
  | str (s : String)
  | obj (fields : List (String × Json))

/-- Serialization of an optional string, as the json macro renders an
Option: the value when present, an explicit null when absent. -/
def Json.ofOptStr : Option String → Json
  | some s => Json.str s
  | none => Json.null

/-- Serialization of an optional integer, as the json macro renders an
Option: the value when present, an explicit null when absent. -/
def Json.ofOptNat : Option Nat → Json
  | some n => Json.num n
  | none => Json.null

/-- Field lookup as serde_json indexing behaves on the emitted values:
the first binding of the key in an object, null otherwise. -/
def Json.getField : Json → String → Json
  | Json.obj fields, k =>
    match fields.find? (fun p => p.fst == k) with
    | some p => p.snd
    | none => Json.null
  | _, _ => Json.null

/-- Wallet events of the external SDK, modeled at the granularity
serialize_event consumes them (main.rs lines 417 to 538): values the
source renders with to_string, debug formatting or hex encoding are
kept as their rendered strings; amounts are kept as naturals. -/
inductive Event where
  | PaymentSuccessful (payment_id : String) (payment_hash : String)
      (payment_preimage : String) (fee_paid_msat : Option Nat)
  | PaymentFailed (payment_id : String) (payment_hash : Option String)
      (reason : Option String)
  | PaymentReceived (payment_id : String) (payment_hash : String)
      (amount_msat : Nat) (custom_records : List String) (lsp_fee_msats : Option Nat)
  | OnchainPaymentReceived (payment_id : String) (txid : String)
      (amount_sat : Nat) (status : String)
  | ChannelOpened (channel_id : String) (user_channel_id : String)
      (counterparty_node_id : String) (funding_txo : String)
  | ChannelClosed (channel_id : String) (user_channel_id : String)
      (counterparty_node_id : String) (reason : Option String)
  | RebalanceInitiated (trigger_payment_id : String)
      (trusted_rebalance_payment_id : String) (amount_msat : Nat)
  | RebalanceSuccessful (trigger_payment_id : String)
      (trusted_rebalance_payment_id : String) (ln_rebalance_payment_id : String)
      (amount_msat : Nat) (fee_msat : Nat)
  | SplicePending (channel_id : String) (user_channel_id : String)
      (counterparty_node_id : String) (new_funding_txo : String)

/-- Canonical event document, main.rs lines 417 to 538: one tagged
object per variant, carrying the capture timestamp and the variant
fields. -/
def serialize_event (event : Event) (timestamp : Nat) : Json :=
  match event with
  | Event.PaymentSuccessful payment_id payment_hash payment_preimage fee_paid_msat =>
    Json.obj
      [ ("type", Json.str "payment_successful")
      , ("timestamp", Json.num timestamp)
      , ("payment_id", Json.str payment_id)
      , ("payment_hash", Json.str payment_hash)
      , ("payment_preimage", Json.str payment_preimage)
      , ("fee_paid_msat", Json.ofOptNat fee_paid_msat) ]
  | Event.PaymentFailed payment_id payment_hash reason =>
    Json.obj
      [ ("type", Json.str "payment_failed")
      , ("timestamp", Json.num timestamp)
      , ("payment_id", Json.str payment_id)
      , ("payment_hash", Json.ofOptStr payment_hash)
      , ("reason", Json.ofOptStr reason) ]
  | Event.PaymentReceived payment_id payment_hash amount_msat custom_records lsp_fee_msats =>
    Json.obj
      [ ("type", Json.str "payment_received")
      , ("timestamp", Json.num timestamp)
      , ("payment_id", Json.str payment_id)
      , ("payment_hash", Json.str payment_hash)
      , ("amount_msat", Json.num amount_msat)
      , ("amount_sats", Json.num (amount_msat / 1000))
      , ("custom_records_count", Json.num custom_records.length)
      , ("lsp_fee_msats", Json.ofOptNat lsp_fee_msats) ]
  | Event.OnchainPaymentReceived payment_id txid amount_sat status =>
    Json.obj
      [ ("type", Json.str "onchain_payment_received")
      , ("timestamp", Json.num timestamp)
      , ("payment_id", Json.str payment_id)
      , ("txid", Json.str txid)
      , ("amount_sat", Json.num amount_sat)
      , ("status", Json.str status) ]
  | Event.ChannelOpened channel_id user_channel_id counterparty_node_id funding_txo =>
    Json.obj
      [ ("type", Json.str "channel_opened")
      , ("timestamp", Json.num timestamp)
      , ("channel_id", Json.str channel_id)
      , ("user_channel_id", Json.str user_channel_id)
      , ("counterparty_node_id", Json.str counterparty_node_id)
      , ("funding_txo", Json.str funding_txo) ]
  | Event.ChannelClosed channel_id user_channel_id counterparty_node_id reason =>
    Json.obj
      [ ("type", Json.str "channel_closed")
      , ("timestamp", Json.num timestamp)
      , ("channel_id", Json.str channel_id)
      , ("user_channel_id", Json.str user_channel_id)
      , ("counterparty_node_id", Json.str counterparty_node_id)
      , ("reason", Json.ofOptStr reason) ]
  | Event.RebalanceInitiated trigger_payment_id trusted_rebalance_payment_id amount_msat =>
    Json.obj
      [ ("type", Json.str "rebalance_initiated")
      , ("timestamp", Json.num timestamp)
      , ("trigger_payment_id", Json.str trigger_payment_id)
      , ("trusted_rebalance_payment_id", Json.str trusted_rebalance_payment_id)
      , ("amount_msat", Json.num amount_msat) ]
  | Event.RebalanceSuccessful trigger_payment_id trusted_rebalance_payment_id
      ln_rebalance_payment_id amount_msat fee_msat =>
    Json.obj
      [ ("type", Json.str "rebalance_successful")
      , ("timestamp", Json.num timestamp)
      , ("trigger_payment_id", Json.str trigger_payment_id)
      , ("trusted_rebalance_payment_id", Json.str trusted_rebalance_payment_id)
      , ("ln_rebalance_payment_id", Json.str ln_rebalance_payment_id)
      , ("amount_msat", Json.num amount_msat)
      , ("fee_msat", Json.num fee_msat) ]
  | Event.SplicePending channel_id user_channel_id counterparty_node_id new_funding_txo =>
    Json.obj
      [ ("type", Json.str "splice_pending")
      , ("timestamp", Json.num timestamp)
      , ("channel_id", Json.str channel_id)
      , ("user_channel_id", Json.str user_channel_id)
      , ("counterparty_node_id", Json.str counterparty_node_id)
      , ("new_funding_txo", Json.str new_funding_txo) ]

/-- Spec-side map from an event variant to its expected type
discriminator, following the canonical event document section of the
specification; compared against the document serialize_event emits. -/
def specEventType : Event → String
  | Event.PaymentSuccessful _ _ _ _ => "payment_successful"
  | Event.PaymentFailed _ _ _ => "payment_failed"
  | Event.PaymentReceived _ _ _ _ _ => "payment_received"
  | Event.OnchainPaymentReceived _ _ _ _ => "onchain_payment_received"
  | Event.ChannelOpened _ _ _ _ => "channel_opened"
  | Event.ChannelClosed _ _ _ _ => "channel_closed"
  | Event.RebalanceInitiated _ _ _ => "rebalance_initiated"
  | Event.RebalanceSuccessful _ _ _ _ _ => "rebalance_successful"
  | Event.SplicePending _ _ _ _ => "splice_pending"

/-- Closed set of type discriminators named by the specification. -/
def eventTypeTags : List String :=
  [ "payment_successful", "payment_failed", "payment_received"
  , "onchain_payment_received", "channel_opened", "channel_closed"
  , "rebalance_initiated", "rebalance_successful", "splice_pending" ]

/-- Keys of the emitted documents that carry amounts. -/
def amountKeys : List String :=
  [ "fee_paid_msat", "amount_msat", "amount_sats", "amount_sat"
  , "lsp_fee_msats", "fee_msat" ]

/-- Test that a value is an integer, or an explicit null standing for
an absent optional amount. -/
def Json.isIntOrNull : Json → Bool
  | Json.num _ => true
  | Json.null => true
  | _ => false

/-- Test that every amount-carrying field of a document is an integer
or an explicit null. -/
def amountsAreIntegers : Json → Bool
  | Json.obj fields =>
    fields.all fun p => !(amountKeys.contains p.fst) || p.snd.isIntOrNull
  | _ => false

/-! ## Daemon loop (main.rs, cmd_daemon)

The loop is embedded as a trace function: the inputs are what the
select race yields on successive iterations (an event together with
its capture timestamp, or the interrupt signal), and the trace records
the externally visible actions in program order. Webhook delivery is
a detached spawned task, so the trace records the dispatch itself; the
eventual outcome of each delivery is supplied by an oracle that the
loop is free to ignore, mirroring fire-and-forget spawning.
-/

/-- Outcome of one webhook delivery attempt. -/
inductive DeliveryOutcome where
  | success
  | nonSuccessStatus (code : Nat)
  | transportError (msg : String)
deriving DecidableEq

/-- Externally visible actions of the daemon loop, in program order. -/
inductive DaemonAction where
  | spawnDelivery (url : String) (body : Json) (outcome : DeliveryOutcome)
  | logEvent (timestamp : Nat) (eventType : Json)
  | eventHandled
  | logShutdown
  | stopWallet

/-- One iteration input: what the select race resolved to. -/
inductive DaemonInput where
  | event (e : Event) (timestamp : Nat)
  | ctrlC

/-- Log lines of one detached delivery task, main.rs lines 367 to 377:
a non-success status and a transport error are logged, a success is
silent; nothing else escapes the task. -/
def webhookTaskLog (url : String) : DeliveryOutcome → List String
  | DeliveryOutcome.success => []
  | DeliveryOutcome.nonSuccessStatus code =>
    ["Webhook " ++ url ++ " returned " ++ toString code]
  | DeliveryOutcome.transportError e =>
    ["Webhook " ++ url ++ " failed: " ++ e]

/-- Event branch of the daemon loop, main.rs lines 354 to 386:
serialize the event, spawn one delivery per configured webhook, log
the event type, and acknowledge the event exactly when at least one
webhook is configured. -/
def processEvent (webhooks : List String) (deliver : String → Json → DeliveryOutcome)
    (e : Event) (ts : Nat) : List DaemonAction :=
  let value := serialize_event e ts
  (webhooks.map fun url => DaemonAction.spawnDelivery url value (deliver url value))
    ++ [DaemonAction.logEvent ts (value.getField "type")]
    ++ (if webhooks.isEmpty then [] else [DaemonAction.eventHandled])

/-- Daemon loop trace, main.rs lines 352 to 395: each event input is
processed by the event branch; the first interrupt signal logs the
shutdown notice, exits the loop and stops the wallet; an exhausted
input list is a loop still blocked in the select. -/
def runDaemon (webhooks : List String) (deliver : String → Json → DeliveryOutcome) :
    List DaemonInput → List DaemonAction
  | [] => []
  | DaemonInput.ctrlC :: _ => [DaemonAction.logShutdown, DaemonAction.stopWallet]
  | DaemonInput.event e ts :: rest =>
    processEvent webhooks deliver e ts ++ runDaemon webhooks deliver rest

/-- Test for the interrupt signal among the inputs a run consumes
before it would block again. -/
def hasCtrlC : List DaemonInput → Bool
  | [] => false
  | DaemonInput.ctrlC :: _ => true
  | DaemonInput.event _ _ :: rest => hasCtrlC rest

/-- Number of events the loop processes: those arriving before the
interrupt signal, or all of them when no signal arrives. -/
def eventsBeforeCtrlC : List DaemonInput → Nat
  | [] => 0
  | DaemonInput.ctrlC :: _ => 0
  | DaemonInput.event _ _ :: rest => eventsBeforeCtrlC rest + 1

/-- Test for an acknowledgment action. -/
def isAck : DaemonAction → Bool
  | DaemonAction.eventHandled => true
  | _ => false

/-- Test for a delivery dispatch action. -/
def isSpawn : DaemonAction → Bool
  | DaemonAction.spawnDelivery _ _ _ => true
  | _ => false

/-- Test for the wallet stop action. -/
def isStop : DaemonAction → Bool
  | DaemonAction.stopWallet => true
  | _ => false

/-- Forgets the oracle-supplied outcome recorded on a dispatch; what
remains is everything the loop itself did or observed. -/
def eraseOutcome : DaemonAction → DaemonAction
  | DaemonAction.spawnDelivery url body _ =>
    DaemonAction.spawnDelivery url body DeliveryOutcome.success
  | a => a

/-- Outcome-forgetting projection of a trace. -/
def eraseOutcomes (trace : List DaemonAction) : List DaemonAction :=
  trace.map eraseOutcome

/-! ## One-shot event commands (main.rs) -/

/-- One-shot get-event command, main.rs lines 397 to 408, parametrized
by what the facade queue yields: a pending event is serialized with
the capture timestamp, an empty queue succeeds with an explicit null
event document. -/
def cmd_get_event (next_event : Option Event) (timestamp : Nat) : Except String Json :=
  match next_event with
  | some event => Except.ok (serialize_event event timestamp)
  | none => Except.ok (Json.obj [("event", Json.null)])

/-! ## Sample values used by the witnesses -/

/-- Sample parsers standing in for the external SDK parsers: the
literal regtest string is the one accepted network, empty strings are
the one rejected address, node id and mnemonic. -/
def sampleParsers : Parsers :=
  { parseNetwork := fun s => if s == "regtest" then some ⟨s⟩ else none
    parseLspAddress := fun s => if s == "" then none else some ⟨s⟩
    parseLspPubkey := fun s =>
      if s == "" then Except.error "empty node id" else Except.ok ⟨s⟩
    parseMnemonic := fun s =>
      if s == "" then Except.error "empty phrase" else Except.ok ⟨s⟩ }

/-- Sample configuration that passes every validation step under
sampleParsers. -/
def sampleOkConfig : Config :=
  { network := "regtest"
    storage_path := "/tmp/wallet"
    mnemonic := "abandon abandon ability"
    chain_source :=
      { source_type := "esplora"
        url := some "https://esplora.example"
        host := none
        port := none
        username := none
        password := none }
    lsp := { address := "127.0.0.1:9735", node_id := "02abc", token := none }
    spark := { sync_interval_secs := 5, prefer_spark_over_lightning := true } }

/-- Descriptor that sampleOkConfig translates to under sampleParsers. -/
def sampleOkWalletConfig : WalletConfig :=
  { storage_config := StorageConfig.LocalSQLite "/tmp/wallet"
    logger_type := LoggerType.File "/tmp/wallet/wallet.log"
    chain_source := ChainSource.Esplora "https://esplora.example" none none
    lsp := (⟨"127.0.0.1:9735"⟩, ⟨"02abc"⟩, none)
    scorer_url := none
    rgs_url := none
    network := ⟨"regtest"⟩
    seed := Seed.Mnemonic ⟨"abandon abandon ability"⟩ none
    tunables := Tunables.default
    extra_config := ExtraConfig.Spark
      { sync_interval_secs := 5, prefer_spark_over_lightning := true } }

/-- Sample configuration whose network string sampleParsers rejects. -/
def sampleBadNetworkConfig : Config :=
  { sampleOkConfig with network := "nope" }

/-- Sample configuration with an unrecognized chain-source tag. -/
def sampleUnknownTagConfig : Config :=
  { sampleOkConfig with
    chain_source :=
      { source_type := "foo"
        url := some "https://esplora.example"
        host := some "localhost"
        port := some 8332
        username := some "user"
        password := some "pass" } }

/-- Sample wallet event for the daemon witnesses. -/
def sampleEvent : Event := Event.PaymentFailed "pay1" none none

/-- Sample delivery oracle in which every delivery fails at the
transport layer. -/
def sampleDeliver : String → Json → DeliveryOutcome :=
  fun _ _ => DeliveryOutcome.transportError "connection refused"

/-! ## Helper lemmas -/

theorem countP_map_eq_zero {α β : Type} (p : β → Bool) (f : α → β) (l : List α)
    (h : ∀ x, p (f x) = false) : (l.map f).countP p = 0 := by
  induction l with
  | nil => rfl
  | cons a t ih => simp [List.countP_cons, h, ih]

theorem countP_map_eq_length {α β : Type} (p : β → Bool) (f : α → β) (l : List α)
    (h : ∀ x, p (f x) = true) : (l.map f).countP p = l.length := by
  induction l with
  | nil => rfl
  | cons a t ih => simp [List.countP_cons, h, ih]

theorem filter_map_of_true {α β : Type} (p : β → Bool) (f : α → β) (l : List α)
    (h : ∀ x, p (f x) = true) : (l.map f).filter p = l.map f := by
  induction l with
  | nil => rfl
  | cons a t ih => simp [List.filter_cons, h, ih]

theorem countP_ack_processEvent (w : List String) (d : String → Json → DeliveryOutcome)
    (e : Event) (ts : Nat) :
    (processEvent w d e ts).countP isAck = if w.isEmpty then 0 else 1 := by
  have h0 := countP_map_eq_zero isAck
    (fun url => DaemonAction.spawnDelivery url (serialize_event e ts) (d url (serialize_event e ts)))
    w (fun _ => rfl)
  simp only [processEvent, List.countP_append, h0, List.countP_cons]
  cases w <;> simp [isAck, List.countP_cons]

theorem countP_stop_processEvent (w : List String) (d : String → Json → DeliveryOutcome)
    (e : Event) (ts : Nat) :
    (processEvent w d e ts).countP isStop = 0 := by
  have h0 := countP_map_eq_zero isStop
    (fun url => DaemonAction.spawnDelivery url (serialize_event e ts) (d url (serialize_event e ts)))
    w (fun _ => rfl)
  simp only [processEvent, List.countP_append, h0, List.countP_cons]
  cases w <;> simp [isStop, List.countP_cons]

theorem countP_spawn_processEvent (w : List String) (d : String → Json → DeliveryOutcome)
    (e : Event) (ts : Nat) :
    (processEvent w d e ts).countP isSpawn = w.length := by
  have h0 := countP_map_eq_length isSpawn
    (fun url => DaemonAction.spawnDelivery url (serialize_event e ts) (d url (serialize_event e ts)))
    w (fun _ => rfl)
  simp only [processEvent, List.countP_append, h0, List.countP_cons]
  cases w <;> simp [isSpawn, List.countP_cons]

theorem countP_ack_run (w : List String) (d : String → Json → DeliveryOutcome)
    (inputs : List DaemonInput) :
    (runDaemon w d inputs).countP isAck = if w.isEmpty then 0 else eventsBeforeCtrlC inputs := by
  induction inputs with
  | nil => simp [runDaemon, eventsBeforeCtrlC]
  | cons i rest ih =>
    cases i with
    | ctrlC => simp [runDaemon, eventsBeforeCtrlC, List.countP_cons, isAck]
    | event e ts =>
      simp only [runDaemon, eventsBeforeCtrlC, List.countP_append, ih, countP_ack_processEvent]
      cases w <;> simp [Nat.add_comm]

theorem filter_spawn_processEvent (w : List String) (d : String → Json → DeliveryOutcome)
    (e : Event) (ts : Nat) :
    (processEvent w d e ts).filter isSpawn
      = w.map fun url => DaemonAction.spawnDelivery url (serialize_event e ts)
          (d url (serialize_event e ts)) := by
  have h0 := filter_map_of_true isSpawn
    (fun url => DaemonAction.spawnDelivery url (serialize_event e ts) (d url (serialize_event e ts)))
    w (fun _ => rfl)
  simp only [processEvent, List.filter_append, h0, List.filter_cons]
  cases w <;> simp [isSpawn, List.filter_cons]

theorem map_erase_spawns (v : Json) (d : String → Json → DeliveryOutcome) (w : List String) :
    List.map eraseOutcome (w.map fun url => DaemonAction.spawnDelivery url v (d url v))
      = w.map fun url => DaemonAction.spawnDelivery url v DeliveryOutcome.success := by
  rw [List.map_map]; rfl

theorem map_erase_ackTail (w : List String) :
    List.map eraseOutcome (if w.isEmpty then [] else [DaemonAction.eventHandled])
      = (if w.isEmpty then ([] : List DaemonAction) else [DaemonAction.eventHandled]) := by
  cases w <;> rfl

theorem erase_processEvent (w : List String) (d : String → Json → DeliveryOutcome)
    (e : Event) (ts : Nat) :
    eraseOutcomes (processEvent w d e ts)
      = processEvent w (fun _ _ => DeliveryOutcome.success) e ts := by
  show List.map eraseOutcome _ = _
  simp only [processEvent, List.map_append, map_erase_spawns, map_erase_ackTail]
  simp [eraseOutcome]

theorem erase_run (w : List String) (d1 d2 : String → Json → DeliveryOutcome)
    (inputs : List DaemonInput) :
    eraseOutcomes (runDaemon w d1 inputs) = eraseOutcomes (runDaemon w d2 inputs) := by
  induction inputs with
  | nil => rfl
  | cons i rest ih =>
    cases i with
    | ctrlC => rfl
    | event e ts =>
      have h1 : eraseOutcomes (runDaemon w d1 (DaemonInput.event e ts :: rest))
          = eraseOutcomes (processEvent w d1 e ts) ++ eraseOutcomes (runDaemon w d1 rest) := by
        simp [runDaemon, eraseOutcomes]
      have h2 : eraseOutcomes (runDaemon w d2 (DaemonInput.event e ts :: rest))
          = eraseOutcomes (processEvent w d2 e ts) ++ eraseOutcomes (runDaemon w d2 rest) := by
        simp [runDaemon, eraseOutcomes]
      rw [h1, h2, erase_processEvent, erase_processEvent, ih]

theorem countP_stop_run (w : List String) (d : String → Json → DeliveryOutcome)
    (inputs : List DaemonInput) :
    (runDaemon w d inputs).countP isStop = if hasCtrlC inputs then 1 else 0 := by
  induction inputs with
  | nil => rfl
  | cons i rest ih =>
    cases i with
    | ctrlC => rfl
    | event e ts =>
      simp [runDaemon, hasCtrlC, List.countP_append, ih, countP_stop_processEvent]

theorem run_append_ctrlC (w : List String) (d : String → Json → DeliveryOutcome)
    (pre post : List DaemonInput) (hpre : hasCtrlC pre = false) :
    runDaemon w d (pre ++ DaemonInput.ctrlC :: post)
      = runDaemon w d pre ++ [DaemonAction.logShutdown, DaemonAction.stopWallet] := by
  induction pre with
  | nil => rfl
  | cons i rest ih =>
    cases i with
    | ctrlC => simp [hasCtrlC] at hpre
    | event e ts =>
      simp only [hasCtrlC] at hpre
      simp [runDaemon, ih hpre]

theorem countP_spawn_run (w : List String) (d : String → Json → DeliveryOutcome)
    (inputs : List DaemonInput) :
    (runDaemon w d inputs).countP isSpawn = w.length * eventsBeforeCtrlC inputs := by
  induction inputs with
  | nil => rfl
  | cons i rest ih =>
    cases i with
    | ctrlC => simp [runDaemon, eventsBeforeCtrlC, List.countP_cons, isSpawn]
    | event e ts =>
      simp [runDaemon, eventsBeforeCtrlC, List.countP_append, ih,
        countP_spawn_processEvent, Nat.mul_add, Nat.mul_one, Nat.add_comm]

theorem first_error_iff (p : Parsers) (c : Config) (e : String) :
    c.into_wallet_config p = Except.error e ↔ firstSome (validationSteps p c) = some e := by
  unfold Config.into_wallet_config validationSteps firstSome
  cases h1 : p.parseNetwork c.network <;>
    cases h2 : chainSourceFrom c.chain_source <;>
      cases h3 : p.parseLspAddress c.lsp.address <;>
        cases h4 : p.parseLspPubkey c.lsp.node_id <;>
          cases h5 : p.parseMnemonic c.mnemonic <;>
            simp [firstSome]

theorem into_ok_shape (p : Parsers) (c : Config) (wc : WalletConfig)
    (h : c.into_wallet_config p = Except.ok wc) :
    (∃ nw, p.parseNetwork c.network = some nw ∧ wc.network = nw)
    ∧ (∃ cs, chainSourceFrom c.chain_source = Except.ok cs ∧ wc.chain_source = cs)
    ∧ (∃ a pk, p.parseLspAddress c.lsp.address = some a
        ∧ p.parseLspPubkey c.lsp.node_id = Except.ok pk
        ∧ wc.lsp = (a, pk, c.lsp.token))
    ∧ (∃ m, p.parseMnemonic c.mnemonic = Except.ok m ∧ wc.seed = Seed.Mnemonic m none)
    ∧ wc.storage_config = StorageConfig.LocalSQLite c.storage_path
    ∧ wc.logger_type = LoggerType.File (c.storage_path ++ "/wallet.log")
    ∧ wc.extra_config = ExtraConfig.Spark
        { sync_interval_secs := c.spark.sync_interval_secs
          prefer_spark_over_lightning := c.spark.prefer_spark_over_lightning } := by
  unfold Config.into_wallet_config at h
  cases h1 : p.parseNetwork c.network <;> rw [h1] at h
  · exact absurd h (by simp)
  cases h2 : chainSourceFrom c.chain_source <;> rw [h2] at h
  · exact absurd h (by simp)
  cases h3 : p.parseLspAddress c.lsp.address <;> rw [h3] at h
  · exact absurd h (by simp)
  cases h4 : p.parseLspPubkey c.lsp.node_id <;> rw [h4] at h
  · exact absurd h (by simp)
  cases h5 : p.parseMnemonic c.mnemonic <;> rw [h5] at h
  · exact absurd h (by simp)
  simp only [Except.ok.injEq] at h
  subst h
  simp_all

theorem unknown_tag_chainSourceFrom (cs : ChainSourceConfig)
    (h : ¬ cs.source_type ∈ supportedChainSourceTags) :
    chainSourceFrom cs = Except.error ("Unknown chain_source type: " ++ cs.source_type) := by
  simp [supportedChainSourceTags] at h
  unfold chainSourceFrom
  split
  · exact absurd (by assumption) (by simp_all)
  · exact absurd (by assumption) (by simp_all)
  · exact absurd (by assumption) (by simp_all)
  · rfl

/-! ## Claim theorems -/

/-- Claim C1: in daemon mode, the acknowledgment count of a run equals
the number of processed events when at least one webhook target is
configured and zero when none is, for every delivery oracle, so a
delivery failure never changes it; and each event iteration dispatches
all deliveries, logs, and then acknowledges exactly when webhooks are
configured, before any action of the next iteration. -/
theorem c1_daemon_ack_policy (webhooks : List String)
    (deliver : String → Json → DeliveryOutcome) (inputs : List DaemonInput)
    (e : Event) (ts : Nat) (rest : List DaemonInput) :
    (runDaemon webhooks deliver inputs).countP isAck
      = (if webhooks.isEmpty then 0 else eventsBeforeCtrlC inputs)
    ∧ runDaemon webhooks deliver (DaemonInput.event e ts :: rest)
      = ((webhooks.map fun url => DaemonAction.spawnDelivery url (serialize_event e ts)
            (deliver url (serialize_event e ts)))
          ++ [DaemonAction.logEvent ts ((serialize_event e ts).getField "type")]
          ++ (if webhooks.isEmpty then [] else [DaemonAction.eventHandled]))
        ++ runDaemon webhooks deliver rest :=
  ⟨countP_ack_run webhooks deliver inputs, rfl⟩

/-- Claim C2: every event iteration dispatches exactly one delivery
per configured webhook target, in target order, with the serialized
event document as payload; the loop then continues with the remaining
inputs, and the whole trace, outcomes of the detached deliveries
erased, is independent of the delivery oracle, so no failure causes a
retry, a block or a termination; overall the dispatch count is the
target count times the processed event count. -/
theorem c2_daemon_fanout (webhooks : List String)
    (deliver d1 d2 : String → Json → DeliveryOutcome)
    (e : Event) (ts : Nat) (inputs rest : List DaemonInput) :
    (processEvent webhooks deliver e ts).filter isSpawn
      = (webhooks.map fun url => DaemonAction.spawnDelivery url (serialize_event e ts)
          (deliver url (serialize_event e ts)))
    ∧ (processEvent webhooks deliver e ts).countP isSpawn = webhooks.length
    ∧ runDaemon webhooks deliver (DaemonInput.event e ts :: rest)
        = processEvent webhooks deliver e ts ++ runDaemon webhooks deliver rest
    ∧ eraseOutcomes (runDaemon webhooks d1 inputs) = eraseOutcomes (runDaemon webhooks d2 inputs)
    ∧ (runDaemon webhooks deliver inputs).countP isSpawn
        = webhooks.length * eventsBeforeCtrlC inputs :=
  ⟨filter_spawn_processEvent webhooks deliver e ts,
   countP_spawn_processEvent webhooks deliver e ts,
   rfl,
   erase_run webhooks d1 d2 inputs,
   countP_spawn_run webhooks deliver inputs⟩

/-- Claim C3: for every chain-source section with the bitcoind_rpc
tag, the chain-source validation step succeeds exactly when host, port,
username and password are all present, and a missing field is reported
as the first missing one in the order host, port, username, password;
in particular a section missing only the port fails citing the port. -/
theorem c3_bitcoind_rpc_required_fields (url : Option String) (host : Option String)
    (port : Option Nat) (username password : Option String) (hv uv : String) (ptv : Nat) :
    exceptIsOk (chainSourceFrom ⟨"bitcoind_rpc", url, host, port, username, password⟩)
      = (host.isSome && port.isSome && username.isSome && password.isSome)
    ∧ chainSourceFrom ⟨"bitcoind_rpc", url, none, port, username, password⟩
        = Except.error "bitcoind_rpc chain_source requires \x27host\x27"
    ∧ chainSourceFrom ⟨"bitcoind_rpc", url, some hv, none, username, password⟩
        = Except.error "bitcoind_rpc chain_source requires \x27port\x27"
    ∧ chainSourceFrom ⟨"bitcoind_rpc", url, some hv, some ptv, none, password⟩
        = Except.error "bitcoind_rpc chain_source requires \x27username\x27"
    ∧ chainSourceFrom ⟨"bitcoind_rpc", url, some hv, some ptv, some uv, none⟩
        = Except.error "bitcoind_rpc chain_source requires \x27password\x27" := by
  refine ⟨?_, rfl, rfl, rfl, rfl⟩
  cases host <;> cases port <;> cases username <;> cases password <;> rfl

/-- Claim C4, counterexample: the chain-source dispatch gives a
dedicated arm to exactly three tags, not four, and a plausible fourth
tag is rejected even with every field populated. -/
theorem c4_variant_count_counterexample :
    supportedChainSourceTags.length = 3
    ∧ chainSourceFrom
        ⟨"bitcoind", some "https://esplora.example", some "localhost", some 8332,
          some "user", some "pass"⟩
      = Except.error "Unknown chain_source type: bitcoind" :=
  ⟨rfl, rfl⟩

/-- Claim C4 as amended: for all three supported chain-source
variants, the chain-source validation step succeeds exactly when every
field required by that variant is present regardless of the other
fields, a missing required field is reported by name, and for esplora
the optional credentials pass into the resulting chain source
unchanged. -/
theorem c4_chain_source_variants (url : Option String) (host : Option String)
    (port : Option Nat) (username password : Option String) (u : String) :
    exceptIsOk (chainSourceFrom ⟨"esplora", url, host, port, username, password⟩) = url.isSome
    ∧ chainSourceFrom ⟨"esplora", some u, host, port, username, password⟩
        = Except.ok (ChainSource.Esplora u username password)
    ∧ chainSourceFrom ⟨"esplora", none, host, port, username, password⟩
        = Except.error "esplora chain_source requires \x27url\x27"
    ∧ exceptIsOk (chainSourceFrom ⟨"electrum", url, host, port, username, password⟩) = url.isSome
    ∧ chainSourceFrom ⟨"electrum", some u, host, port, username, password⟩
        = Except.ok (ChainSource.Electrum u)
    ∧ chainSourceFrom ⟨"electrum", none, host, port, username, password⟩
        = Except.error "electrum chain_source requires \x27url\x27"
    ∧ exceptIsOk (chainSourceFrom ⟨"bitcoind_rpc", url, host, port, username, password⟩)
        = (host.isSome && port.isSome && username.isSome && password.isSome) := by
  refine ⟨?_, rfl, rfl, ?_, rfl, rfl, ?_⟩
  · cases url <;> rfl
  · cases url <;> rfl
  · cases host <;> cases port <;> cases username <;> cases password <;> rfl

/-- Claim C5: a chain-source tag outside the supported set makes the
chain-source validation step fail with the message naming the tag
whatever the other section fields hold, and makes the whole
translation fail with that same message whenever the network step, the
only step evaluated earlier, succeeds. -/
theorem c5_unknown_chain_source_tag (p : Parsers) (c : Config) (nw : Network)
    (h : ¬ c.chain_source.source_type ∈ supportedChainSourceTags) :
    chainSourceFrom c.chain_source
      = Except.error ("Unknown chain_source type: " ++ c.chain_source.source_type)
    ∧ (p.parseNetwork c.network = some nw →
        c.into_wallet_config p
          = Except.error ("Unknown chain_source type: " ++ c.chain_source.source_type)) := by
  have h1 := unknown_tag_chainSourceFrom c.chain_source h
  refine ⟨h1, fun hn => ?_⟩
  unfold Config.into_wallet_config
  rw [hn, h1]

/-- Claim C5, witness at the tag foo with a parseable network. -/
theorem c5_unknown_chain_source_tag_witness :
    ¬ "foo" ∈ supportedChainSourceTags
    ∧ chainSourceFrom sampleUnknownTagConfig.chain_source
        = Except.error "Unknown chain_source type: foo"
    ∧ sampleUnknownTagConfig.into_wallet_config sampleParsers
        = Except.error "Unknown chain_source type: foo" := by
  have h := c5_unknown_chain_source_tag sampleParsers sampleUnknownTagConfig
    ⟨"regtest"⟩ (by decide)
  exact ⟨by decide, h.1, h.2 rfl⟩

/-- Claim C6: the translation fails with exactly the error of the
first failing validation step, the steps taken in the order network,
chain source, LSP address, LSP node id, mnemonic, and in the success
case every component of the returned descriptor comes from its own
successful step, so no partially-built descriptor ever escapes. -/
theorem c6_validation_first_error (p : Parsers) (c : Config) :
    (∀ e, c.into_wallet_config p = Except.error e
        ↔ firstSome (validationSteps p c) = some e)
    ∧ (∀ wc, c.into_wallet_config p = Except.ok wc →
        (∃ nw, p.parseNetwork c.network = some nw ∧ wc.network = nw)
        ∧ (∃ cs, chainSourceFrom c.chain_source = Except.ok cs ∧ wc.chain_source = cs)
        ∧ (∃ a pk, p.parseLspAddress c.lsp.address = some a
            ∧ p.parseLspPubkey c.lsp.node_id = Except.ok pk
            ∧ wc.lsp = (a, pk, c.lsp.token))
        ∧ (∃ m, p.parseMnemonic c.mnemonic = Except.ok m ∧ wc.seed = Seed.Mnemonic m none)
        ∧ wc.storage_config = StorageConfig.LocalSQLite c.storage_path
        ∧ wc.logger_type = LoggerType.File (c.storage_path ++ "/wallet.log")
        ∧ wc.extra_config = ExtraConfig.Spark
            { sync_interval_secs := c.spark.sync_interval_secs
              prefer_spark_over_lightning := c.spark.prefer_spark_over_lightning }) :=
  ⟨fun e => first_error_iff p c e, fun wc h => into_ok_shape p c wc h⟩

/-- Claim C6, witness: a configuration failing at the network step
fails with exactly that first error. -/
theorem c6_validation_first_error_witness :
    firstSome (validationSteps sampleParsers sampleBadNetworkConfig)
      = some "Invalid network: nope"
    ∧ sampleBadNetworkConfig.into_wallet_config sampleParsers
      = Except.error "Invalid network: nope" :=
  ⟨rfl,
   ((c6_validation_first_error sampleParsers sampleBadNetworkConfig).1
      "Invalid network: nope").mpr rfl⟩

/-- Claim C7: for every event variant and timestamp the serialized
document carries the type discriminator matching the variant, drawn
from the closed nine-element set, carries the given timestamp, and
every amount-carrying field is an integer or an explicit null for an
absent optional amount; in particular a payment_received event with
amount_msat 5000 exposes amount_sats 5. -/
theorem c7_event_document_shape (e : Event) (ts : Nat) (pid ph : String)
    (cr : List String) (fee : Option Nat) :
    (serialize_event e ts).getField "type" = Json.str (specEventType e)
    ∧ eventTypeTags.contains (specEventType e) = true
    ∧ (serialize_event e ts).getField "timestamp" = Json.num ts
    ∧ amountsAreIntegers (serialize_event e ts) = true
    ∧ (serialize_event (Event.PaymentReceived pid ph 5000 cr fee) ts).getField "amount_sats"
        = Json.num 5 := by
  refine ⟨?_, ?_, ?_, ?_, rfl⟩
  · cases e <;> rfl
  · cases e <;> rfl
  · cases e <;> rfl
  · cases e <;>
      simp [serialize_event, amountsAreIntegers, amountKeys, Json.isIntOrNull] <;>
        try (rename_i a b c dd; cases dd <;> simp [Json.ofOptNat, Json.isIntOrNull])

/-- Claim C8: the interrupt signal at the head of the remaining inputs
ends the run with only the shutdown notice and the wallet stop, the
stop action occurs exactly once in a run containing the signal and
never otherwise, and a signal arriving after signal-free inputs leaves
their processing unchanged, processes nothing that follows the signal,
and appends the stop after the loop actions. -/
theorem c8_daemon_shutdown (webhooks : List String)
    (deliver : String → Json → DeliveryOutcome)
    (rest inputs pre post : List DaemonInput) (hpre : hasCtrlC pre = false) :
    runDaemon webhooks deliver (DaemonInput.ctrlC :: rest)
      = [DaemonAction.logShutdown, DaemonAction.stopWallet]
    ∧ (runDaemon webhooks deliver inputs).countP isStop
        = (if hasCtrlC inputs then 1 else 0)
    ∧ runDaemon webhooks deliver (pre ++ DaemonInput.ctrlC :: post)
        = runDaemon webhooks deliver pre
            ++ [DaemonAction.logShutdown, DaemonAction.stopWallet] :=
  ⟨rfl, countP_stop_run webhooks deliver inputs,
   run_append_ctrlC webhooks deliver pre post hpre⟩

/-- Claim C8, witness: one event before the signal, one after; the
event after the signal is not processed and the stop comes last. -/
theorem c8_daemon_shutdown_witness :
    hasCtrlC [DaemonInput.event sampleEvent 7] = false
    ∧ runDaemon ["http://localhost:9000/hook"] sampleDeliver
        ([DaemonInput.event sampleEvent 7]
          ++ DaemonInput.ctrlC :: [DaemonInput.event sampleEvent 8])
      = runDaemon ["http://localhost:9000/hook"] sampleDeliver
          [DaemonInput.event sampleEvent 7]
          ++ [DaemonAction.logShutdown, DaemonAction.stopWallet] :=
  ⟨rfl,
   (c8_daemon_shutdown ["http://localhost:9000/hook"] sampleDeliver []
      [] [DaemonInput.event sampleEvent 7] [DaemonInput.event sampleEvent 8] rfl).2.2⟩

/-- Claim C9: an absent spark section, or absent individual fields of
a present section, default the sync interval to 60 and the preference
flag to false, present values pass through, and the translated
descriptor carries the spark settings of the configuration
unchanged. -/
theorem c9_spark_defaults (p : Parsers) (c : Config) (si : Nat) (pf : Bool) :
    SparkConfig.ofSection none
      = { sync_interval_secs := 60, prefer_spark_over_lightning := false }
    ∧ SparkConfig.ofSection (some (none, none))
        = { sync_interval_secs := 60, prefer_spark_over_lightning := false }
    ∧ SparkConfig.ofSection (some (some si, none))
        = { sync_interval_secs := si, prefer_spark_over_lightning := false }
    ∧ SparkConfig.ofSection (some (none, some pf))
        = { sync_interval_secs := 60, prefer_spark_over_lightning := pf }
    ∧ SparkConfig.ofSection (some (some si, some pf))
        = { sync_interval_secs := si, prefer_spark_over_lightning := pf }
    ∧ (∀ wc, c.into_wallet_config p = Except.ok wc →
        wc.extra_config = ExtraConfig.Spark
          { sync_interval_secs := c.spark.sync_interval_secs
            prefer_spark_over_lightning := c.spark.prefer_spark_over_lightning }) :=
  ⟨rfl, rfl, rfl, rfl, rfl,
   fun wc h => (into_ok_shape p c wc h).2.2.2.2.2.2⟩

/-- Claim C9, witness: a successful translation carries the configured
spark settings through to the descriptor. -/
theorem c9_spark_defaults_witness :
    sampleOkConfig.into_wallet_config sampleParsers = Except.ok sampleOkWalletConfig
    ∧ sampleOkWalletConfig.extra_config = ExtraConfig.Spark
        { sync_interval_secs := 5, prefer_spark_over_lightning := true } :=
  ⟨rfl,
   (c9_spark_defaults sampleParsers sampleOkConfig 5 true).2.2.2.2.2
     sampleOkWalletConfig rfl⟩

/-- Claim C10: the one-shot get-event command succeeds on an empty
queue with the explicit null event document, and indeed succeeds on
every queue state. -/
theorem c10_get_event_empty_queue (ts : Nat) (q : Option Event) :
    cmd_get_event none ts = Except.ok (Json.obj [("event", Json.null)])
    ∧ exceptIsOk (cmd_get_event q ts) = true :=
  ⟨rfl, by cases q <;> rfl⟩

end Orange
